import Mathlib

/-! Shallow embedding of the diagram-editor component
    (src/spiffworkflow-frontend/src/components/ReactDiagramEditor.tsx) and the
    find-by-id form (src/spiffworkflow-frontend/src/routes/ProcessInstanceFindById.tsx).
    Pure logic is translated directly; the external bpmn-io engine services
    (canvas.addMarker, overlays.add, fetch, the backend HTTP service) appear as
    function-valued oracles or as emitted request descriptions. -/

namespace SpiffArena

/-- A task record of the execution-state list (fields of interfaces.Task used
    by ReactDiagramEditor: bpmn_identifier, bpmn_process_definition_identifier,
    state, typename). -/
structure Task where
  bpmn_identifier : String
  bpmn_process_definition_identifier : String
  state : String
  typename : String
  deriving DecidableEq, Repr

/-- JS regular-expression test for a literal pattern, as in
    taskBpmnId.match of the literal patterns at lines 699-702: the pattern
    occurs as a substring of the subject. -/
def regexTest (pat s : String) : Bool :=
  decide (pat.data <:+: s.data)

/-- Line 694: the identifiers that can never be highlighted. -/
def taskSpecsThatCannotBeHighlighted : List String :=
  ["Root", "Start", "End"]

/-- Lines 696-704: checkTaskCanBeHighlighted. -/
def checkTaskCanBeHighlighted (taskBpmnId : String) : Bool :=
  !(taskSpecsThatCannotBeHighlighted.contains taskBpmnId) &&
  !(regexTest "EndJoin" taskBpmnId) &&
  !(regexTest "BoundaryEventParent" taskBpmnId) &&
  !(regexTest "BoundaryEventJoin" taskBpmnId) &&
  !(regexTest "BoundaryEventSplit" taskBpmnId)

/-- Lines 799-809: the className chosen for a task state inside onImportDone
    (the empty string means no marker). -/
def classNameForState (state : String) : String :=
  if state = "COMPLETED" then "completed-task-highlight"
  else if state ∈ ["READY", "WAITING", "STARTED"] then "active-task-highlight"
  else if state = "CANCELLED" then "cancelled-task-highlight"
  else if state = "ERROR" then "errored-task-highlight"
  else ""

/-- Lines 682-683 and 725-726: the exact message of the bpmn-io failure that is
    swallowed (a referenced node that does not exist in the current diagram). -/
def missingNodeMessage : String :=
  "Cannot read properties of undefined (reading \x27id\x27)"

/-- The engine services the highlight pass touches, as oracles: canvas.addMarker
    (node id, marker class) and overlays.add (node id), each either succeeding
    or throwing an error message. Together with the three view facts consulted
    by addOverlayOnCallActivity (lines 638-643). -/
structure DiagramEnv where
  diagramType : String
  onCallActivityOverlayClickSupplied : Bool
  modelerPresent : Bool
  addMarker : String → String → Except String Unit
  overlaysAdd : String → Except String Unit

/-- Lines 706-732: highlightBpmnIoElement. Returns the markers actually applied
    (node id, marker class); a thrown missing-node failure is swallowed, any
    other failure is re-raised. -/
def highlightBpmnIoElement (addMarker : String → String → Except String Unit)
    (task : Task) (bpmnIoClassName : String)
    (bpmnProcessIdentifiers : List String) :
    Except String (List (String × String)) :=
  if checkTaskCanBeHighlighted task.bpmn_identifier then
    if task.bpmn_process_definition_identifier ∈ bpmnProcessIdentifiers then
      match addMarker task.bpmn_identifier bpmnIoClassName with
      | Except.ok _ => Except.ok [(task.bpmn_identifier, bpmnIoClassName)]
      | Except.error msg =>
          if msg = missingNodeMessage then Except.ok [] else Except.error msg
    else Except.ok []
  else Except.ok []

/-- Lines 634-688: addOverlayOnCallActivity. Returns the node ids that received
    a drilldown overlay; the early return fires unless the host supplied
    onCallActivityOverlayClick, the view is the readonly kind and a modeler
    exists; the same missing-node failure is swallowed, others re-raised. -/
def addOverlayOnCallActivity (env : DiagramEnv) (task : Task)
    (bpmnProcessIdentifiers : List String) : Except String (List String) :=
  if env.onCallActivityOverlayClickSupplied = false ∨ env.diagramType ≠ "readonly"
      ∨ env.modelerPresent = false then
    Except.ok []
  else if task.bpmn_process_definition_identifier ∈ bpmnProcessIdentifiers then
    match env.overlaysAdd task.bpmn_identifier with
    | Except.ok _ => Except.ok [task.bpmn_identifier]
    | Except.error msg =>
        if msg = missingNodeMessage then Except.ok [] else Except.error msg
  else Except.ok []

/-- The visible effects of one highlight pass: the markers applied by
    canvas.addMarker and the nodes given a drilldown overlay. -/
structure HighlightOutcome where
  markers : List (String × String)
  overlays : List String
  deriving DecidableEq, Repr

/-- Lines 799-824: the body of the tasks.forEach for one task: pick a
    className, highlight when it is nonempty, and attach a call-activity
    overlay when the task is a CallActivity in a relevant state. -/
def highlightTask (env : DiagramEnv) (bpmnProcessIdentifiers : List String)
    (task : Task) : Except String HighlightOutcome :=
  match (if classNameForState task.state ≠ "" then
          highlightBpmnIoElement env.addMarker task (classNameForState task.state)
            bpmnProcessIdentifiers
        else Except.ok []) with
  | Except.error e => Except.error e
  | Except.ok ms =>
    match (if task.typename = "CallActivity"
              ∧ task.state ∉ ["FUTURE", "LIKELY", "MAYBE"] then
            addOverlayOnCallActivity env task bpmnProcessIdentifiers
          else Except.ok []) with
    | Except.error e => Except.error e
    | Except.ok os => Except.ok { markers := ms, overlays := os }

/-- Lines 794-825: the walk over the whole task list (tasks.forEach); a
    re-raised failure aborts the walk, a swallowed one lets it continue. -/
def highlightPass (env : DiagramEnv) (bpmnProcessIdentifiers : List String) :
    List Task → Except String HighlightOutcome
  | [] => Except.ok { markers := [], overlays := [] }
  | task :: rest =>
    match highlightTask env bpmnProcessIdentifiers task with
    | Except.error e => Except.error e
    | Except.ok o =>
      match highlightPass env bpmnProcessIdentifiers rest with
      | Except.error e => Except.error e
      | Except.ok os =>
          Except.ok { markers := o.markers ++ os.markers,
                      overlays := o.overlays ++ os.overlays }

/-- What one run of the import-done handler did: errors passed to handleError,
    whether the viewport was fit, and the highlight outcome. -/
structure ImportDoneResult where
  loggedErrors : List String
  viewportFit : Bool
  outcome : HighlightOutcome
  deriving DecidableEq, Repr

/-- The empty highlight outcome. -/
def emptyOutcome : HighlightOutcome := { markers := [], overlays := [] }

/-- Lines 734-826: onImportDone. An event error is logged via handleError and
    the handler returns at once (no viewport fit, no highlight pass); otherwise
    the viewport is fit and, when a task list is supplied, the highlight pass
    runs over it with the identifiers of the current diagram root. -/
def onImportDone (env : DiagramEnv) (eventError : Option String)
    (tasks : Option (List Task)) (bpmnProcessIdentifiers : List String) :
    Except String ImportDoneResult :=
  match eventError with
  | some e =>
      Except.ok { loggedErrors := [e], viewportFit := false, outcome := emptyOutcome }
  | none =>
      match tasks with
      | none =>
          Except.ok { loggedErrors := [], viewportFit := true, outcome := emptyOutcome }
      | some taskList =>
          match highlightPass env bpmnProcessIdentifiers taskList with
          | Except.ok o =>
              Except.ok { loggedErrors := [], viewportFit := true, outcome := o }
          | Except.error msg => Except.error msg

/-- Reading of the structural exclusion in the claim: exact names Root, Start,
    End, or an identifier containing EndJoin, BoundaryEventParent,
    BoundaryEventJoin or BoundaryEventSplit. -/
def structurallyExcluded (taskBpmnId : String) : Bool :=
  taskSpecsThatCannotBeHighlighted.contains taskBpmnId ||
  regexTest "EndJoin" taskBpmnId ||
  regexTest "BoundaryEventParent" taskBpmnId ||
  regexTest "BoundaryEventJoin" taskBpmnId ||
  regexTest "BoundaryEventSplit" taskBpmnId

/-- Reading of the status-to-marker mapping in the claim, as an optional
    marker class. -/
def specMarker (status : String) : Option String :=
  if status = "COMPLETED" then some "completed-task-highlight"
  else if status ∈ ["READY", "WAITING", "STARTED"] then some "active-task-highlight"
  else if status = "CANCELLED" then some "cancelled-task-highlight"
  else if status = "ERROR" then some "errored-task-highlight"
  else none

/-- The state touched by the overlay click handler (lines 657-661):
    diagramXMLString, diagramModelerState (a handle identity or null) and a log
    of the invocations of the host callback onCallActivityOverlayClick. -/
structure ComponentUIState where
  diagramXMLString : String
  diagramModelerState : Option Nat
  overlayClickCalls : List Task
  deriving DecidableEq, Repr

/-- Lines 657-661: the click listener of the drilldown overlay button: it
    invokes onCallActivityOverlayClick with the task, then sets
    diagramXMLString to the empty string and diagramModelerState to null. -/
def overlayButtonClick (task : Task) (s : ComponentUIState) : ComponentUIState :=
  { diagramXMLString := "",
    diagramModelerState := none,
    overlayClickCalls := s.overlayClickCalls ++ [task] }

/-- JS truthiness of an optional string prop (undefined, null and the empty
    string are falsy). -/
def jsTruthy : Option String → Bool
  | none => false
  | some s => s ≠ ""

/-- What the document-resolution step (the get-the-diagram-xml effect) decides
    to do: set the inline text, fetch a URL, call the backend file API, or
    fetch a kind-specific blank template; or do nothing because there is no
    modeler yet or because performingXmlUpdates is set. -/
inductive ResolveAction where
  | setInline (text : String)
  | fetchFromURL (u : String)
  | fetchFromBackend (path : String)
  | fetchBlankBpmn (u : String)
  | fetchBlankDmn (u : String)
  | noModeler
  | suppressed
  deriving DecidableEq, Repr

/-- Lines 895-917: the resolution body after the guards, mirroring the early
    return on a truthy diagramXML and the second block guarded by its
    negation. -/
def getDiagramXmlResolve (diagramXML url fileName : Option String)
    (diagramType processModelId : String) : ResolveAction :=
  if jsTruthy diagramXML then ResolveAction.setInline (diagramXML.getD "")
  else if !(jsTruthy diagramXML) then
    if jsTruthy url then ResolveAction.fetchFromURL (url.getD "")
    else if jsTruthy fileName then
      ResolveAction.fetchFromBackend
        ("/process-models/" ++ processModelId ++ "/files/" ++ fileName.getD "")
    else if diagramType = "dmn" then ResolveAction.fetchBlankDmn "/new_dmn_diagram.dmn"
    else ResolveAction.fetchBlankBpmn "/new_bpmn_diagram.bpmn"
  else ResolveAction.setInline (diagramXML.getD "")

/-- Lines 850-857 and 895-917: the whole effect, with its two early returns
    (no modeler yet; performingXmlUpdates set). -/
def getDiagramXmlEffect (modelerPresent performingXmlUpdates : Bool)
    (diagramXML url fileName : Option String)
    (diagramType processModelId : String) : ResolveAction :=
  if modelerPresent = false then ResolveAction.noModeler
  else if performingXmlUpdates then ResolveAction.suppressed
  else getDiagramXmlResolve diagramXML url fileName diagramType processModelId

/-- Lines 865-869: bpmnTextHandler, with the token produced by makeid 7 (a
    helper outside this component) abstracted as an argument. The braces of the
    placeholder are written with hex escapes. -/
def bpmnTextHandler (token text : String) : String :=
  text.replace "\x7b\x7bPROCESS_ID\x7d\x7d" ("Process_" ++ token)

/-- Lines 859-863: dmnTextHandler, same shape for the decision id. -/
def dmnTextHandler (token text : String) : String :=
  text.replace "\x7b\x7bDECISION_ID\x7d\x7d" ("decision_" ++ token)

/-- A network request issued by the document resolution step. -/
inductive DocRequest where
  | fetchURL (u : String)
  | backendFile (path : String)
  deriving DecidableEq, Repr

/-- The observable outcome of one run of the resolution body: the requests
    issued and the value passed to setDiagramXMLString, when it is called at
    all. -/
structure ResolveOutcome where
  requests : List DocRequest
  newDiagramXMLString : Option String
  deriving DecidableEq, Repr

/-- Lines 874-882: fetchDiagramFromURL: fetch the URL, read the response
    text, then apply the optional textHandler to it. The handlers store their
    result via setDiagramXMLString, so the stored value is the handler
    result; with no handler the then step receives undefined and the fetched
    text is discarded, storing nothing. -/
def fetchDiagramFromURL (fetchText : String → String) (urlToUse : String)
    (textHandler : Option (String → String)) : ResolveOutcome :=
  { requests := [DocRequest.fetchURL urlToUse],
    newDiagramXMLString :=
      match textHandler with
      | some handler => some (handler (fetchText urlToUse))
      | none => none }

/-- Lines 895-917 with the transports made observable: which requests are
    issued and what reaches setDiagramXMLString. The URL branch (line 903)
    calls fetchDiagramFromURL without a textHandler, so the fetched text is
    discarded; the blank branch (line 916) passes the kind-specific handler,
    which stores the substituted template; the file branch stores the backend
    file_contents. -/
def getDiagramXmlOutcome (fetchText backendFileContents : String → String)
    (token : String) (diagramXML url fileName : Option String)
    (diagramType processModelId : String) : ResolveOutcome :=
  if jsTruthy diagramXML then
    { requests := [], newDiagramXMLString := some (diagramXML.getD "") }
  else if jsTruthy url then
    fetchDiagramFromURL fetchText (url.getD "") none
  else if jsTruthy fileName then
    { requests := [DocRequest.backendFile
        ("/process-models/" ++ processModelId ++ "/files/" ++ fileName.getD "")],
      newDiagramXMLString := some (backendFileContents
        ("/process-models/" ++ processModelId ++ "/files/" ++ fileName.getD "")) }
  else if diagramType = "dmn" then
    fetchDiagramFromURL fetchText "/new_dmn_diagram.dmn" (some (dmnTextHandler token))
  else
    fetchDiagramFromURL fetchText "/new_bpmn_diagram.bpmn" (some (bpmnTextHandler token))

/-- Reading of the claim: the text the resolution step is said to resolve for
    each provenance, by precedence (in particular, for the URL provenance the
    resolved document is the fetched text). -/
def specResolvedText (fetchText backendFileContents : String → String)
    (token : String) (inlineDoc url fileName : Option String)
    (diagramType processModelId : String) : String :=
  if jsTruthy inlineDoc then inlineDoc.getD ""
  else if jsTruthy url then fetchText (url.getD "")
  else if jsTruthy fileName then
    backendFileContents ("/process-models/" ++ processModelId ++ "/files/" ++ fileName.getD "")
  else if diagramType = "dmn" then dmnTextHandler token (fetchText "/new_dmn_diagram.dmn")
  else bpmnTextHandler token (fetchText "/new_bpmn_diagram.bpmn")

/-- Reading of the claim: the precedence chain inline value, then explicit
    URL, then named remote file, then generated blank. -/
def specResolveSource (inlineDoc url fileName : Option String)
    (diagramType processModelId : String) : ResolveAction :=
  if jsTruthy inlineDoc then ResolveAction.setInline (inlineDoc.getD "")
  else if jsTruthy url then ResolveAction.fetchFromURL (url.getD "")
  else if jsTruthy fileName then
    ResolveAction.fetchFromBackend
      ("/process-models/" ++ processModelId ++ "/files/" ++ fileName.getD "")
  else if diagramType = "dmn" then ResolveAction.fetchBlankDmn "/new_dmn_diagram.dmn"
  else ResolveAction.fetchBlankBpmn "/new_bpmn_diagram.bpmn"

/-- Which of the sub-editor launch host callbacks were supplied to the
    component. -/
structure HostCallbacksSupplied where
  onLaunchScriptEditor : Bool
  onLaunchMarkdownEditor : Bool
  onLaunchBpmnEditor : Bool
  onLaunchJsonSchemaEditor : Bool
  onLaunchDmnEditor : Bool
  onLaunchMessageEditor : Bool
  deriving DecidableEq, Repr

/-- The six sub-editor launch requests of the claim, in the order script,
    markdown, sub-process or call-activity (bpmn), JSON schema (file edit),
    decision table (dmn), message. -/
inductive SubEditorLaunch where
  | script
  | markdown
  | bpmn
  | jsonSchema
  | dmn
  | message
  deriving DecidableEq, Repr

/-- Whether issuing a given launch request executes setPerformingXmlUpdates
    true. Only handleLaunchScriptEditor (lines 297-308) and
    handleLaunchMarkdownEditor (lines 310-319) do, and only when the matching
    host callback is supplied; the handlers of spiff.callactivity.edit,
    spiff.file.edit, spiff.dmn.edit and spiff.message.edit (lines 364-384 and
    438-442) never touch the flag. -/
def launchEventSetsGuard (cb : HostCallbacksSupplied) : SubEditorLaunch → Bool
  | SubEditorLaunch.script => cb.onLaunchScriptEditor
  | SubEditorLaunch.markdown => cb.onLaunchMarkdownEditor
  | SubEditorLaunch.bpmn => false
  | SubEditorLaunch.jsonSchema => false
  | SubEditorLaunch.dmn => false
  | SubEditorLaunch.message => false

/-- The performingXmlUpdates flag after a launch request: the component only
    ever writes true, so the flag can only grow. -/
def guardAfterLaunch (cb : HostCallbacksSupplied) (guard : Bool)
    (launch : SubEditorLaunch) : Bool :=
  guard || launchEventSetsGuard cb launch

/-- The performingXmlUpdates flag after one run of the get-the-diagram-xml
    effect: the effect never calls setPerformingXmlUpdates, so the flag is
    unchanged. -/
def guardAfterLoadCycle (guard : Bool) : Bool :=
  guard

/-- The dependency values of the import-xml effect (lines 840-847):
    diagramType, diagramXMLString, diagramModelerState (a handle identity or
    null), and the remaining dependencies (zoom, onCallActivityOverlayClick,
    tasks) folded into one identity tag. -/
structure ImportEffectDeps where
  diagramType : String
  diagramXMLString : String
  diagramModelerState : Option Nat
  otherDeps : Nat
  deriving DecidableEq, Repr

/-- The cleanup registered by one run of the import-xml effect: the body
    returns undefined (no cleanup) when diagramXMLString is empty or there is
    no modeler (lines 627-629), and otherwise returns a closure destroying
    diagramModelerState (lines 836-838). -/
def importEffectCleanup (d : ImportEffectDeps) : Option Nat :=
  if d.diagramXMLString = "" then none
  else d.diagramModelerState

/-- React effect semantics over a sequence of renders: whenever the dependency
    values change, the cleanup of the previous run fires before the new body
    runs. Returns the handles destroyed, in order, while the view is still
    mounted. -/
def destroysDuringRenders : Option ImportEffectDeps → List ImportEffectDeps → List Nat
  | _, [] => []
  | none, d :: rest => destroysDuringRenders (some d) rest
  | some prev, d :: rest =>
      if d = prev then destroysDuringRenders (some prev) rest
      else (importEffectCleanup prev).toList ++ destroysDuringRenders (some d) rest

/-- The handles destroyed while mounted, starting from the first render. -/
def destroysWhileMounted (renders : List ImportEffectDeps) : List Nat :=
  destroysDuringRenders none renders

/-- The cleanup run at unmount: the one registered by the last effect run. -/
def destroysAtUnmount (renders : List ImportEffectDeps) : List Nat :=
  match renders.getLast? with
  | none => []
  | some d => (importEffectCleanup d).toList

/-- Lines 207-295 and 344: one run of the body of the modeler-creation
    effect. diagramModeler starts as null (line 234), so a fresh modeler is
    always constructed (line 237) and stored via setDiagramModelerState (line
    344); the effect body ends without returning a cleanup (lines 443-459),
    so a re-run never destroys the previous handle. Arguments: the handles
    created so far, the current handle state, a fresh handle identity;
    result: the new created list and the new handle state. -/
def creationEffectRun (created : List Nat) (_diagramModelerState : Option Nat)
    (freshId : Nat) : List Nat × Option Nat :=
  (created ++ [freshId], some freshId)

/-- The handles created so far on which no destroy has been run. -/
def liveHandles (created destroyed : List Nat) : List Nat :=
  created.filter (fun h => h ∉ destroyed)

/-- A render of the import effect before any document is loaded: a handle is
    present but diagramXMLString is empty, so the body returns at lines
    627-629 before registering a cleanup. -/
def renderNoDoc1 : ImportEffectDeps :=
  { diagramType := "bpmn", diagramXMLString := "",
    diagramModelerState := some 0, otherDeps := 0 }

/-- The same situation after the creation effect re-ran (a host callback
    identity changed) and stored a second fresh handle. -/
def renderNoDoc2 : ImportEffectDeps :=
  { diagramType := "bpmn", diagramXMLString := "",
    diagramModelerState := some 1, otherDeps := 1 }

/-- A moddle reference dropped during import, as delivered by the
    import.parse.complete event (the fields fixUnresolvedReferences reads:
    property, id, name, element). The owning element is tracked by an identity
    number; name is none when the JS field is undefined. -/
structure ModdleReference where
  property : String
  id : String
  name : Option String
  element : Nat
  deriving DecidableEq, Repr

/-- A JS value as stored in the name property of the recreated element (the
    source expression can produce a boolean). -/
inductive JsVal where
  | undef
  | bool (b : Bool)
  | str (s : String)
  deriving DecidableEq, Repr

/-- An element recreated by fixUnresolvedReferences: descriptor
    bpmn:ItemAwareElement, the props passed to moddle.create, the parent
    assignment and the property it is re-attached on. -/
structure CreatedItemAwareElement where
  descriptor : String
  id : String
  name : JsVal
  parent : Nat
  attachedProperty : String
  deriving DecidableEq, Repr

/-- Lines 185-189: the filter keeping only loop-data input and output
    references. -/
def isLoopDataRef (r : ModdleReference) : Bool :=
  r.property = "bpmn:loopDataInputRef" || r.property = "bpmn:loopDataOutputRef"

/-- Lines 194-202: what one filtered reference is turned into: an
    ItemAwareElement created with props id and name, its parent set to the
    owning element, re-attached on the original property of that element. -/
def compensateRef (r : ModdleReference) : CreatedItemAwareElement :=
  { descriptor := "bpmn:ItemAwareElement",
    id := r.id,
    name := if r.id ≠ "" then JsVal.bool (r.name = none)
            else match r.name with
                 | none => JsVal.undef
                 | some s => JsVal.str s,
    parent := r.element,
    attachedProperty := r.property }

/-- Lines 181-203: the import.parse.complete handler installed by
    fixUnresolvedReferences; event.references may be absent (the handler then
    returns at once). Returns the recreated elements. -/
def fixUnresolvedReferencesHandler (references : Option (List ModdleReference)) :
    List CreatedItemAwareElement :=
  match references with
  | none => []
  | some refs => (refs.filter isLoopDataRef).map compensateRef

/-- Lines 832-834: the import-xml effect installs fixUnresolvedReferences only
    when diagramType is not dmn. -/
def fixRegisteredForDiagramType (diagramType : String) : Bool :=
  diagramType ≠ "dmn"

/-- The host callbacks forwarded by the simple request subscriptions. -/
inductive RequestForward where
  | serviceTasks
  | dataStores
  | jsonSchemaFiles
  | dmnFiles
  | messages
  deriving DecidableEq, Repr

/-- Lines 402-430: the subscribe calls that forward request events, in source
    order; spiff.json_schema_files.requested appears twice, once forwarding to
    onJsonSchemaFilesRequested and once (line 428-430) to
    handleServiceTasksRequested. -/
def requestSubscriptions : List (String × RequestForward) :=
  [("spiff.service_tasks.requested", RequestForward.serviceTasks),
   ("spiff.data_stores.requested", RequestForward.dataStores),
   ("spiff.json_schema_files.requested", RequestForward.jsonSchemaFiles),
   ("spiff.dmn_files.requested", RequestForward.dmnFiles),
   ("spiff.messages.requested", RequestForward.messages),
   ("spiff.json_schema_files.requested", RequestForward.serviceTasks)]

/-- Which of the request host callbacks were supplied. -/
structure RequestCallbacksSupplied where
  onServiceTasksRequested : Bool
  onDataStoresRequested : Bool
  onJsonSchemaFilesRequested : Bool
  onDmnFilesRequested : Bool
  onMessagesRequested : Bool
  deriving DecidableEq, Repr

/-- Each handler forwards only when its host callback is supplied (the
    handlers at lines 331-341 and 410-430 all guard on the callback). -/
def forwardTargetSupplied (cb : RequestCallbacksSupplied) : RequestForward → Bool
  | RequestForward.serviceTasks => cb.onServiceTasksRequested
  | RequestForward.dataStores => cb.onDataStoresRequested
  | RequestForward.jsonSchemaFiles => cb.onJsonSchemaFilesRequested
  | RequestForward.dmnFiles => cb.onDmnFilesRequested
  | RequestForward.messages => cb.onMessagesRequested

/-- Firing one engine event: every subscription with that event name runs, in
    subscription order, and forwards to its target when supplied. All the
    handlers pass the same event object through, so the list of targets says
    exactly which host callbacks receive that event. -/
def fireEvent (cb : RequestCallbacksSupplied) (eventName : String) :
    List RequestForward :=
  ((requestSubscriptions.filter (fun p => p.1 = eventName)).map Prod.snd).filter
    (forwardTargetSupplied cb)

/-- The state of the find-by-id page (ProcessInstanceFindById.tsx):
    processInstanceId and processInstanceIdValid. -/
structure FindByIdState where
  processInstanceId : String
  processInstanceIdValid : Bool
  deriving DecidableEq, Repr

/-- Lines 13-15 of ProcessInstanceFindById.tsx: the initial state. -/
def initialFindByIdState : FindByIdState :=
  { processInstanceId := "", processInstanceIdValid := true }

/-- Lines 48-55: handleProcessInstanceIdChange; isInteger lives in helpers
    (outside this file) and is abstracted as an argument. -/
def handleProcessInstanceIdChange (isInteger : String → Bool) (value : String)
    (_s : FindByIdState) : FindByIdState :=
  { processInstanceId := value,
    processInstanceIdValid := isInteger value }

/-- Lines 33-46: handleFormSubmission. Returns the updated state and the
    backend request path when one is issued. -/
def handleFormSubmission (s : FindByIdState) : FindByIdState × Option String :=
  let s1 := if s.processInstanceId = ""
            then { s with processInstanceIdValid := false } else s
  if s.processInstanceId ≠ "" ∧ s.processInstanceIdValid then
    (s1, some ("/process-instances/find-by-id/" ++ s.processInstanceId))
  else (s1, none)

/-- A concrete integer validator used to instantiate witnesses. -/
def digitsOnly (s : String) : Bool :=
  s ≠ "" && s.data.all Char.isDigit

/-- A concrete engine environment whose services always succeed. -/
def envOk : DiagramEnv :=
  { diagramType := "readonly",
    onCallActivityOverlayClickSupplied := true,
    modelerPresent := true,
    addMarker := fun _ _ => Except.ok (),
    overlaysAdd := fun _ => Except.ok () }

/-- A concrete completed task owned by a visible process definition. -/
def taskCompleted : Task :=
  { bpmn_identifier := "Task_1",
    bpmn_process_definition_identifier := "Proc_main",
    state := "COMPLETED",
    typename := "UserTask" }

/-- A first render of the import-xml effect with a document and a handle. -/
def renderA : ImportEffectDeps :=
  { diagramType := "bpmn", diagramXMLString := "doc-one",
    diagramModelerState := some 0, otherDeps := 0 }

/-- A second render whose document text changed while everything else stayed
    the same: one document load following another. -/
def renderB : ImportEffectDeps :=
  { diagramType := "bpmn", diagramXMLString := "doc-two",
    diagramModelerState := some 0, otherDeps := 0 }

/-- All sub-editor launch callbacks supplied. -/
def allLaunchCallbacks : HostCallbacksSupplied :=
  { onLaunchScriptEditor := true, onLaunchMarkdownEditor := true,
    onLaunchBpmnEditor := true, onLaunchJsonSchemaEditor := true,
    onLaunchDmnEditor := true, onLaunchMessageEditor := true }

/-- A concrete call activity in a started state, owned by a visible process
    definition. -/
def taskCallActivity : Task :=
  { bpmn_identifier := "CallAct_1",
    bpmn_process_definition_identifier := "Proc_main",
    state := "STARTED",
    typename := "CallActivity" }

/-- A concrete component state before an overlay click. -/
def uiStateSample : ComponentUIState :=
  { diagramXMLString := "doc-one", diagramModelerState := some 5,
    overlayClickCalls := [] }

/-- A concrete engine environment whose services always throw the
    missing-node failure. -/
def envMissingNode : DiagramEnv :=
  { diagramType := "readonly",
    onCallActivityOverlayClickSupplied := true,
    modelerPresent := true,
    addMarker := fun _ _ => Except.error missingNodeMessage,
    overlaysAdd := fun _ => Except.error missingNodeMessage }

/-- A concrete dropped loop-data input reference. -/
def refInput : ModdleReference :=
  { property := "bpmn:loopDataInputRef", id := "DataIn_1", name := none, element := 7 }

/-- A concrete dropped loop-data output reference. -/
def refOutput : ModdleReference :=
  { property := "bpmn:loopDataOutputRef", id := "DataOut_1", name := none, element := 7 }

/-- A concrete dropped reference of an unrelated property. -/
def refOther : ModdleReference :=
  { property := "bpmn:sourceRef", id := "Flow_1", name := none, element := 3 }

/-! Helper lemmas shared by the claim theorems. -/

/-- The guard of highlightBpmnIoElement is the negation of the structural
    exclusion of the claim. -/
theorem checkTask_eq_not_excluded (i : String) :
    checkTaskCanBeHighlighted i = !structurallyExcluded i := by
  unfold checkTaskCanBeHighlighted structurallyExcluded
  cases taskSpecsThatCannotBeHighlighted.contains i <;>
  cases regexTest "EndJoin" i <;>
  cases regexTest "BoundaryEventParent" i <;>
  cases regexTest "BoundaryEventJoin" i <;>
  cases regexTest "BoundaryEventSplit" i <;> rfl

/-- The optional marker of the claim agrees with the className chain of the
    source (empty className means no marker). -/
theorem specMarker_eq (s : String) :
    specMarker s = if classNameForState s = "" then none
                   else some (classNameForState s) := by
  unfold specMarker classNameForState
  by_cases h1 : s = "COMPLETED"
  · simp [h1]
  · by_cases h2 : s ∈ ["READY", "WAITING", "STARTED"]
    · simp [h1, h2]
    · by_cases h3 : s = "CANCELLED"
      · simp [h1, h2, h3]
      · by_cases h4 : s = "ERROR"
        · simp [h1, h2, h3, h4]
        · simp [h1, h2, h3, h4]

/-- Closed form of highlightBpmnIoElement under a marker service that always
    succeeds. -/
theorem highlightBpmnIoElement_ok_oracle
    (addMarker : String → String → Except String Unit)
    (h : ∀ i c, addMarker i c = Except.ok ())
    (t : Task) (cls : String) (ids : List String) :
    highlightBpmnIoElement addMarker t cls ids =
      Except.ok (if checkTaskCanBeHighlighted t.bpmn_identifier
                    ∧ t.bpmn_process_definition_identifier ∈ ids
                 then [(t.bpmn_identifier, cls)] else []) := by
  unfold highlightBpmnIoElement
  by_cases hc : checkTaskCanBeHighlighted t.bpmn_identifier
  · by_cases hm : t.bpmn_process_definition_identifier ∈ ids
    · simp [hc, hm, h]
    · simp [hc, hm]
  · simp [hc]

/-- Closed form of addOverlayOnCallActivity under an overlay service that
    always succeeds. -/
theorem addOverlayOnCallActivity_ok_oracle (env : DiagramEnv)
    (hov : ∀ i, env.overlaysAdd i = Except.ok ())
    (t : Task) (ids : List String) :
    addOverlayOnCallActivity env t ids =
      Except.ok (if env.onCallActivityOverlayClickSupplied = true
                    ∧ env.diagramType = "readonly"
                    ∧ env.modelerPresent = true
                    ∧ t.bpmn_process_definition_identifier ∈ ids
                 then [t.bpmn_identifier] else []) := by
  unfold addOverlayOnCallActivity
  by_cases hs : env.onCallActivityOverlayClickSupplied = true <;>
  by_cases hd : env.diagramType = "readonly" <;>
  by_cases hm : env.modelerPresent = true <;>
  by_cases hmem : t.bpmn_process_definition_identifier ∈ ids <;>
  simp [hs, hd, hm, hmem, hov]

/-- Closed form of the per-task highlight step under services that always
    succeed. -/
theorem highlightTask_ok_oracle (env : DiagramEnv) (t : Task) (ids : List String)
    (hadd : ∀ i c, env.addMarker i c = Except.ok ())
    (hov : ∀ i, env.overlaysAdd i = Except.ok ()) :
    highlightTask env ids t = Except.ok
      { markers := if classNameForState t.state ≠ ""
                      ∧ checkTaskCanBeHighlighted t.bpmn_identifier
                      ∧ t.bpmn_process_definition_identifier ∈ ids
                   then [(t.bpmn_identifier, classNameForState t.state)] else [],
        overlays := if (t.typename = "CallActivity"
                        ∧ t.state ∉ (["FUTURE", "LIKELY", "MAYBE"] : List String))
                      ∧ env.onCallActivityOverlayClickSupplied = true
                      ∧ env.diagramType = "readonly"
                      ∧ env.modelerPresent = true
                      ∧ t.bpmn_process_definition_identifier ∈ ids
                    then [t.bpmn_identifier] else [] } := by
  by_cases hcn : classNameForState t.state = "" <;>
  simp [highlightTask, hcn,
        highlightBpmnIoElement_ok_oracle env.addMarker hadd,
        addOverlayOnCallActivity_ok_oracle env hov] <;>
  split <;> rename_i hsplit <;> split at hsplit <;>
  rename_i hcond <;> simp_all

/-! Claim theorems. -/

/-- C1: after a successful import, the status-to-marker mapping is COMPLETED
    to the completed marker, any of READY, WAITING, STARTED to the active
    marker, CANCELLED to the cancelled marker, ERROR to the errored marker,
    and any other status gets no marker; and a marker is applied to the node
    only if the identifier is not structurally excluded (exactly Root, Start
    or End, or containing EndJoin, BoundaryEventParent, BoundaryEventJoin or
    BoundaryEventSplit, which never receive a marker regardless of status) and
    the owning process-definition identifier is among those visible in the
    current diagram root. -/
theorem status_marker_mapping (env : DiagramEnv) (t : Task) (ids : List String)
    (hadd : ∀ i c, env.addMarker i c = Except.ok ())
    (hov : ∀ i, env.overlaysAdd i = Except.ok ()) :
    ∃ o, highlightTask env ids t = Except.ok o ∧
      o.markers = (match specMarker t.state with
        | none => []
        | some cls =>
            if structurallyExcluded t.bpmn_identifier = true then []
            else if t.bpmn_process_definition_identifier ∈ ids then
              [(t.bpmn_identifier, cls)]
            else []) := by
  refine ⟨_, highlightTask_ok_oracle env t ids hadd hov, ?_⟩
  rw [specMarker_eq]
  by_cases hcn : classNameForState t.state = ""
  · simp [hcn]
  · rw [if_neg hcn]
    by_cases hex : structurallyExcluded t.bpmn_identifier = true
    · have hc : checkTaskCanBeHighlighted t.bpmn_identifier = false := by
        rw [checkTask_eq_not_excluded, hex]; rfl
      simp [hcn, hc, hex]
    · have hex' : structurallyExcluded t.bpmn_identifier = false := by
        revert hex; cases structurallyExcluded t.bpmn_identifier <;> simp
      have hc : checkTaskCanBeHighlighted t.bpmn_identifier = true := by
        rw [checkTask_eq_not_excluded, hex']; rfl
      by_cases hmem : t.bpmn_process_definition_identifier ∈ ids
      · simp [hcn, hc, hex', hmem]
      · simp [hcn, hc, hex', hmem]

/-- Witness for status_marker_mapping: a completed task owned by a visible
    process definition receives exactly the completed marker. -/
theorem status_marker_mapping_witness :
    ∃ o, highlightTask envOk ["Proc_main"] taskCompleted = Except.ok o ∧
      o.markers = [("Task_1", "completed-task-highlight")] := by
  obtain ⟨o, h1, h2⟩ := status_marker_mapping envOk taskCompleted ["Proc_main"]
    (fun _ _ => rfl) (fun _ => rfl)
  refine ⟨o, h1, ?_⟩
  rw [h2]
  decide

/-- C7: an import completion event carrying an error is logged and the handler
    returns immediately: no viewport fit, no highlight pass, and a normal
    return rather than a raised exception. -/
theorem import_error_is_terminal_and_silent (env : DiagramEnv) (e : String)
    (tasks : Option (List Task)) (ids : List String) :
    onImportDone env (some e) tasks ids =
      Except.ok { loggedErrors := [e], viewportFit := false,
                  outcome := emptyOutcome } := rfl

/-- C8: in the highlight pass and the overlay attachment, a failure whose
    message is exactly the missing-node message is caught and swallowed while
    the pass continues with the remaining tasks; a failure with any other
    message is re-raised and aborts the pass. -/
theorem missing_node_failures_swallowed (env : DiagramEnv) (t : Task)
    (cls : String) (ids : List String)
    (hguard : checkTaskCanBeHighlighted t.bpmn_identifier = true)
    (hmem : t.bpmn_process_definition_identifier ∈ ids) :
    (env.addMarker t.bpmn_identifier cls = Except.error missingNodeMessage →
      highlightBpmnIoElement env.addMarker t cls ids = Except.ok [])
    ∧ (∀ msg, msg ≠ missingNodeMessage →
        env.addMarker t.bpmn_identifier cls = Except.error msg →
        highlightBpmnIoElement env.addMarker t cls ids = Except.error msg)
    ∧ (env.onCallActivityOverlayClickSupplied = true → env.diagramType = "readonly" →
        env.modelerPresent = true →
        env.overlaysAdd t.bpmn_identifier = Except.error missingNodeMessage →
        addOverlayOnCallActivity env t ids = Except.ok [])
    ∧ (∀ msg, msg ≠ missingNodeMessage →
        env.onCallActivityOverlayClickSupplied = true → env.diagramType = "readonly" →
        env.modelerPresent = true →
        env.overlaysAdd t.bpmn_identifier = Except.error msg →
        addOverlayOnCallActivity env t ids = Except.error msg)
    ∧ (∀ rest o os, highlightTask env ids t = Except.ok o →
        highlightPass env ids rest = Except.ok os →
        highlightPass env ids (t :: rest) =
          Except.ok { markers := o.markers ++ os.markers,
                      overlays := o.overlays ++ os.overlays })
    ∧ (∀ rest msg, highlightTask env ids t = Except.error msg →
        highlightPass env ids (t :: rest) = Except.error msg) := by
  refine ⟨?_, ?_, ?_, ?_, ?_, ?_⟩
  · intro h
    simp [highlightBpmnIoElement, hguard, hmem, h]
  · intro msg hne h
    simp [highlightBpmnIoElement, hguard, hmem, h, hne]
  · intro hs hd hm h
    simp [addOverlayOnCallActivity, hs, hd, hm, hmem, h]
  · intro msg hne hs hd hm h
    simp [addOverlayOnCallActivity, hs, hd, hm, hmem, h, hne]
  · intro rest o os h1 h2
    simp [highlightPass, h1, h2]
  · intro rest msg h1
    simp [highlightPass, h1]

/-- Witness for missing_node_failures_swallowed: a marker service that raises
    the missing-node failure for a concrete highlightable, visible task leads
    to an empty, successful result. -/
theorem missing_node_failures_swallowed_witness :
    highlightBpmnIoElement envMissingNode.addMarker taskCompleted
      "completed-task-highlight" ["Proc_main"] = Except.ok [] :=
  (missing_node_failures_swallowed envMissingNode taskCompleted
    "completed-task-highlight" ["Proc_main"] (by decide) (by simp [taskCompleted])).1 rfl

/-- C6: a drill-down overlay is attached to a node only when the task is a
    CallActivity whose status is none of FUTURE, LIKELY, MAYBE, the host
    supplied the drill-down callback, and the view is the read-only kind; and
    clicking the overlay invokes the host callback exactly once with the task,
    then sets the document text to empty and the engine handle to null. -/
theorem call_activity_overlay (env : DiagramEnv) (t : Task)
    (ids : List String) (o : HighlightOutcome) (s : ComponentUIState)
    (hadd : ∀ i c, env.addMarker i c = Except.ok ())
    (hov : ∀ i, env.overlaysAdd i = Except.ok ())
    (hrun : highlightTask env ids t = Except.ok o)
    (hatt : o.overlays ≠ []) :
    (t.typename = "CallActivity"
      ∧ t.state ∉ (["FUTURE", "LIKELY", "MAYBE"] : List String)
      ∧ env.onCallActivityOverlayClickSupplied = true
      ∧ env.diagramType = "readonly")
    ∧ overlayButtonClick t s =
        { diagramXMLString := "", diagramModelerState := none,
          overlayClickCalls := s.overlayClickCalls ++ [t] } := by
  have h := highlightTask_ok_oracle env t ids hadd hov
  have ho : o = _ := Except.ok.inj (hrun.symm.trans h)
  subst ho
  by_cases hC : (t.typename = "CallActivity"
        ∧ t.state ∉ (["FUTURE", "LIKELY", "MAYBE"] : List String))
      ∧ env.onCallActivityOverlayClickSupplied = true
      ∧ env.diagramType = "readonly"
      ∧ env.modelerPresent = true
      ∧ t.bpmn_process_definition_identifier ∈ ids
  · exact ⟨⟨hC.1.1, hC.1.2, hC.2.1, hC.2.2.1⟩, rfl⟩
  · exfalso
    apply hatt
    exact if_neg hC

/-- Witness for call_activity_overlay at a concrete started call activity in
    a read-only view. -/
theorem call_activity_overlay_witness :
    (taskCallActivity.typename = "CallActivity"
      ∧ taskCallActivity.state ∉ (["FUTURE", "LIKELY", "MAYBE"] : List String)
      ∧ envOk.onCallActivityOverlayClickSupplied = true
      ∧ envOk.diagramType = "readonly")
    ∧ overlayButtonClick taskCallActivity uiStateSample =
        { diagramXMLString := "", diagramModelerState := none,
          overlayClickCalls := uiStateSample.overlayClickCalls ++ [taskCallActivity] } :=
  call_activity_overlay envOk taskCallActivity ["Proc_main"]
    { markers := [("CallAct_1", "active-task-highlight")], overlays := ["CallAct_1"] }
    uiStateSample (fun _ _ => rfl) (fun _ => rfl) rfl (by decide)

/-- C2 as stated is false: with only a URL supplied, the claim says the
    resolved document is the text fetched from it, but the code calls
    fetchDiagramFromURL without a textHandler, so the fetched text is
    discarded and the document state is never set on that path, although the
    network call is still made. -/
theorem document_source_claim_fails :
    (getDiagramXmlOutcome (fun _ => "fetched-doc") (fun p => p) "tok"
        none (some "http-url") none "bpmn" "m1").requests
      = [DocRequest.fetchURL "http-url"]
    ∧ (getDiagramXmlOutcome (fun _ => "fetched-doc") (fun p => p) "tok"
        none (some "http-url") none "bpmn" "m1").newDiagramXMLString = none
    ∧ specResolvedText (fun _ => "fetched-doc") (fun p => p) "tok"
        none (some "http-url") none "bpmn" "m1" = "fetched-doc"
    ∧ (getDiagramXmlOutcome (fun _ => "fetched-doc") (fun p => p) "tok"
        none (some "http-url") none "bpmn" "m1").newDiagramXMLString
      ≠ some (specResolvedText (fun _ => "fetched-doc") (fun p => p) "tok"
          none (some "http-url") none "bpmn" "m1") := by
  decide

/-- C2 amended: resolution selects exactly one source by the precedence
    inline value, explicit URL, named remote file, generated blank. Inline
    text is stored as the document with no network call; a URL is fetched but
    its text is discarded (no text handler is passed) and the document state
    is not updated on that path; a file name is requested from the backend at
    /process-models/(modelId)/files/(fileName) and the file contents stored;
    otherwise the kind-specific blank template is fetched and stored with its
    placeholder substituted. -/
theorem document_source_resolution (diagramXML url fileName : Option String)
    (dt pmid : String) (fetchText backendFileContents : String → String)
    (token : String) :
    (getDiagramXmlResolve diagramXML url fileName dt pmid =
        specResolveSource diagramXML url fileName dt pmid)
    ∧ (jsTruthy diagramXML = true →
        getDiagramXmlOutcome fetchText backendFileContents token
            diagramXML url fileName dt pmid =
          { requests := [], newDiagramXMLString := some (diagramXML.getD "") })
    ∧ (jsTruthy diagramXML = false → jsTruthy url = true →
        getDiagramXmlOutcome fetchText backendFileContents token
            diagramXML url fileName dt pmid =
          { requests := [DocRequest.fetchURL (url.getD "")],
            newDiagramXMLString := none })
    ∧ (jsTruthy diagramXML = false → jsTruthy url = false → jsTruthy fileName = true →
        getDiagramXmlOutcome fetchText backendFileContents token
            diagramXML url fileName dt pmid =
          { requests := [DocRequest.backendFile
              ("/process-models/" ++ pmid ++ "/files/" ++ fileName.getD "")],
            newDiagramXMLString := some (backendFileContents
              ("/process-models/" ++ pmid ++ "/files/" ++ fileName.getD "")) })
    ∧ (jsTruthy diagramXML = false → jsTruthy url = false → jsTruthy fileName = false →
        getDiagramXmlOutcome fetchText backendFileContents token
            diagramXML url fileName dt pmid =
          (if dt = "dmn" then
            { requests := [DocRequest.fetchURL "/new_dmn_diagram.dmn"],
              newDiagramXMLString :=
                some (dmnTextHandler token (fetchText "/new_dmn_diagram.dmn")) }
          else
            { requests := [DocRequest.fetchURL "/new_bpmn_diagram.bpmn"],
              newDiagramXMLString :=
                some (bpmnTextHandler token (fetchText "/new_bpmn_diagram.bpmn")) })) := by
  refine ⟨?_, ?_, ?_, ?_, ?_⟩
  · by_cases h1 : jsTruthy diagramXML = true <;>
      simp [getDiagramXmlResolve, specResolveSource, h1]
  · intro h1
    simp [getDiagramXmlOutcome, h1]
  · intro h1 h2
    simp [getDiagramXmlOutcome, fetchDiagramFromURL, h1, h2]
  · intro h1 h2 h3
    simp [getDiagramXmlOutcome, h1, h2, h3]
  · intro h1 h2 h3
    by_cases hdt : dt = "dmn" <;>
      simp [getDiagramXmlOutcome, fetchDiagramFromURL, h1, h2, h3, hdt]

/-- Witness for document_source_resolution: inline text wins over a URL and a
    file name, is stored, and no request is issued; with neither inline text
    nor a URL the backend file path is requested and its contents stored. -/
theorem document_source_resolution_witness :
    getDiagramXmlOutcome (fun _ => "fetched") (fun p => p) "tok"
        (some "X") (some "http-url") (some "f.bpmn") "bpmn" "m1" =
      { requests := [], newDiagramXMLString := some "X" }
    ∧ getDiagramXmlOutcome (fun _ => "fetched") (fun p => p) "tok"
        none none (some "f.bpmn") "bpmn" "m1" =
      { requests := [DocRequest.backendFile "/process-models/m1/files/f.bpmn"],
        newDiagramXMLString := some "/process-models/m1/files/f.bpmn" } := by
  constructor
  · have h := (document_source_resolution (some "X") (some "http-url") (some "f.bpmn")
      "bpmn" "m1" (fun _ => "fetched") (fun p => p) "tok").2.1 (by decide)
    rw [h]
    decide
  · have h := (document_source_resolution none none (some "f.bpmn")
      "bpmn" "m1" (fun _ => "fetched") (fun p => p) "tok").2.2.2.1 rfl rfl (by decide)
    rw [h]
    decide

/-- C3: for a non-dmn import the compensation handler is registered and
    recreates, for exactly the dropped references whose property is
    bpmn:loopDataInputRef or bpmn:loopDataOutputRef, an ItemAwareElement
    carrying the original reference identifier, parented to the owning
    element and re-attached on it under the original property; for a dmn
    document the pass is never registered. -/
theorem loop_reference_compensation (refs : List ModdleReference) (dt : String) :
    (fixRegisteredForDiagramType "dmn" = false
      ∧ (dt ≠ "dmn" → fixRegisteredForDiagramType dt = true))
    ∧ (∀ e ∈ fixUnresolvedReferencesHandler (some refs), ∃ r ∈ refs,
        (r.property = "bpmn:loopDataInputRef" ∨ r.property = "bpmn:loopDataOutputRef")
        ∧ e.descriptor = "bpmn:ItemAwareElement"
        ∧ e.id = r.id ∧ e.parent = r.element ∧ e.attachedProperty = r.property)
    ∧ (∀ r ∈ refs, isLoopDataRef r = true →
        compensateRef r ∈ fixUnresolvedReferencesHandler (some refs)
        ∧ (compensateRef r).descriptor = "bpmn:ItemAwareElement"
        ∧ (compensateRef r).id = r.id
        ∧ (compensateRef r).parent = r.element
        ∧ (compensateRef r).attachedProperty = r.property)
    ∧ fixUnresolvedReferencesHandler none = [] := by
  refine ⟨⟨rfl, ?_⟩, ?_, ?_, rfl⟩
  · intro h
    simp [fixRegisteredForDiagramType, h]
  · intro e he
    simp only [fixUnresolvedReferencesHandler, List.mem_map, List.mem_filter] at he
    obtain ⟨r, ⟨hr, hl⟩, rfl⟩ := he
    refine ⟨r, hr, ?_, rfl, rfl, rfl, rfl⟩
    simpa [isLoopDataRef] using hl
  · intro r hr hl
    exact ⟨List.mem_map_of_mem _ (List.mem_filter.mpr ⟨hr, hl⟩), rfl, rfl, rfl, rfl⟩

/-- Witness for loop_reference_compensation on a concrete reference list with
    one input reference, one output reference and one unrelated reference. -/
theorem loop_reference_compensation_witness :
    compensateRef refInput ∈
      fixUnresolvedReferencesHandler (some [refInput, refOutput, refOther])
    ∧ (compensateRef refInput).id = "DataIn_1"
    ∧ fixRegisteredForDiagramType "dmn" = false := by
  obtain ⟨⟨hdmn, _⟩, _, hrev, _⟩ :=
    loop_reference_compensation [refInput, refOutput, refOther] "bpmn"
  have h := hrev refInput (by simp) (by decide)
  exact ⟨h.1, by rw [h.2.2.1]; rfl, hdmn⟩

/-- C4 as stated is false: with every sub-editor launch callback supplied, a
    JSON-schema launch request leaves the pending-edit guard unset, and a new
    document load cycle leaves a set guard set rather than clearing it. -/
theorem pending_guard_claim_fails :
    launchEventSetsGuard allLaunchCallbacks SubEditorLaunch.jsonSchema = false
    ∧ guardAfterLaunch allLaunchCallbacks false SubEditorLaunch.jsonSchema = false
    ∧ guardAfterLoadCycle true = true := by decide

/-- C4 amended: the pending-edit guard is set only by the script-editor and
    markdown-editor launch requests, each when its host callback is supplied;
    the sub-process, JSON-schema, decision-table and message launches never
    set it; a document load cycle never clears it; and while it is set the
    document resolution step is suppressed. -/
theorem pending_guard_behavior (cb : HostCallbacksSupplied) (g : Bool)
    (xml url file : Option String) (dt pmid : String) :
    guardAfterLaunch cb g SubEditorLaunch.script = (g || cb.onLaunchScriptEditor)
    ∧ guardAfterLaunch cb g SubEditorLaunch.markdown = (g || cb.onLaunchMarkdownEditor)
    ∧ guardAfterLaunch cb g SubEditorLaunch.bpmn = g
    ∧ guardAfterLaunch cb g SubEditorLaunch.jsonSchema = g
    ∧ guardAfterLaunch cb g SubEditorLaunch.dmn = g
    ∧ guardAfterLaunch cb g SubEditorLaunch.message = g
    ∧ guardAfterLoadCycle g = g
    ∧ getDiagramXmlEffect true true xml url file dt pmid = ResolveAction.suppressed := by
  refine ⟨rfl, rfl, ?_, ?_, ?_, ?_, rfl, ?_⟩ <;>
    simp [guardAfterLaunch, launchEventSetsGuard, getDiagramXmlEffect]

/-- C5 as stated is false on two counts. First, across two renders whose
    document text changed while the view stays mounted, the effect cleanup
    destroys the engine handle, and together with the unmount cleanup the
    same handle is destroyed twice, not exactly once and not only at unmount.
    Second, two runs of the creation effect (diagramModeler starts null, so
    each run constructs a fresh handle and registers no cleanup) while no
    document is loaded leave two handles created and none ever destroyed, so
    two live handles exist at once. -/
theorem engine_destroy_claim_fails :
    (destroysWhileMounted [renderA, renderB] = [0]
      ∧ destroysWhileMounted [renderA, renderB] ≠ []
      ∧ destroysWhileMounted [renderA, renderB] ++ destroysAtUnmount [renderA, renderB]
          = [0, 0])
    ∧ ((creationEffectRun [] none 0).1 = [0]
      ∧ (creationEffectRun [0] (some 0) 1).1 = [0, 1]
      ∧ destroysWhileMounted [renderNoDoc1, renderNoDoc2] = []
      ∧ destroysAtUnmount [renderNoDoc1, renderNoDoc2] = []
      ∧ liveHandles (creationEffectRun [0] (some 0) 1).1
          (destroysWhileMounted [renderNoDoc1, renderNoDoc2]
            ++ destroysAtUnmount [renderNoDoc1, renderNoDoc2]) = [0, 1]) := by
  decide

/-- C5 amended: engine handles are destroyed only by the import-xml effect
    cleanup, which is registered only while a nonempty document and a handle
    are present and which runs whenever the effect dependencies change (so in
    particular on each document change while the view stays mounted) and
    again at unmount; a handle can therefore be destroyed more than once, or
    never when no document was loaded. The creation effect always constructs
    a fresh handle and registers no cleanup, so a re-run adds a live handle
    while every previously live one stays live: more than one live handle can
    exist at a time. (Whether destroying an already-destroyed handle is a
    no-op is a property of the external bpmn-js engine, outside this
    source.) -/
theorem engine_destroyed_on_dependency_change (prev d : ImportEffectDeps)
    (rest : List ImportEffectDeps) (m : Nat)
    (hne : d ≠ prev) (hm : prev.diagramModelerState = some m)
    (hx : prev.diagramXMLString ≠ "") :
    (destroysDuringRenders (some prev) (d :: rest) =
      m :: destroysDuringRenders (some d) rest)
    ∧ destroysAtUnmount [prev] = [m]
    ∧ (∀ dd : ImportEffectDeps, dd.diagramXMLString = "" →
        importEffectCleanup dd = none)
    ∧ (∀ created modeler freshId,
        creationEffectRun created modeler freshId = (created ++ [freshId], some freshId))
    ∧ (∀ created modeler freshId destroyed, freshId ∉ destroyed →
        liveHandles (creationEffectRun created modeler freshId).1 destroyed =
          liveHandles created destroyed ++ [freshId]) := by
  refine ⟨?_, ?_, ?_, ?_, ?_⟩
  · simp [destroysDuringRenders, hne, importEffectCleanup, hx, hm]
  · simp [destroysAtUnmount, importEffectCleanup, hx, hm]
  · intro dd h
    simp [importEffectCleanup, h]
  · intro created modeler freshId
    rfl
  · intro created modeler freshId destroyed h
    simp [liveHandles, creationEffectRun, List.filter_append, h]

/-- Witness for engine_destroyed_on_dependency_change at two concrete renders
    and a concrete fresh handle. -/
theorem engine_destroyed_on_dependency_change_witness :
    destroysDuringRenders (some renderA) [renderB] = [0]
    ∧ destroysAtUnmount [renderA] = [0]
    ∧ liveHandles (creationEffectRun [0] (some 0) 1).1 [] = [0, 1] := by
  have h := engine_destroyed_on_dependency_change renderA renderB [] 0
    (by decide) rfl (by decide)
  refine ⟨by rw [h.1]; rfl, h.2.1, ?_⟩
  have h2 := h.2.2.2.2 [0] (some 0) 1 [] (by decide)
  rw [h2]
  decide

/-- C9: the engine event spiff.json_schema_files.requested is subscribed
    twice, so firing it forwards the same event both to the JSON-schema-files
    host callback and to the service-tasks host callback, each when
    supplied. -/
theorem json_schema_event_double_subscription (cb : RequestCallbacksSupplied) :
    fireEvent cb "spiff.json_schema_files.requested" =
      (if cb.onJsonSchemaFilesRequested then [RequestForward.jsonSchemaFiles] else [])
      ++ (if cb.onServiceTasksRequested then [RequestForward.serviceTasks] else []) := by
  rcases cb with ⟨a, b, c, d, e⟩
  cases a <;> cases c <;>
    simp [fireEvent, requestSubscriptions, forwardTargetSupplied]

/-- C10: submitting the find-by-id form issues the backend lookup request at
    /process-instances/find-by-id/(id) exactly when the entered identifier is
    non-empty and the most recent input-change validation judged it an
    integer; submitting with an empty identifier marks the field invalid and
    issues no request. -/
theorem find_by_id_submission (isInteger : String → Bool) (value : String)
    (s0 : FindByIdState) :
    ((handleFormSubmission (handleProcessInstanceIdChange isInteger value s0)).2 =
        if value ≠ "" ∧ isInteger value = true then
          some ("/process-instances/find-by-id/" ++ value)
        else none)
    ∧ (value = "" →
        (handleFormSubmission
            (handleProcessInstanceIdChange isInteger value s0)).1.processInstanceIdValid
          = false
        ∧ (handleFormSubmission (handleProcessInstanceIdChange isInteger value s0)).2
          = none) := by
  constructor
  · by_cases hv : value = ""
    · simp [handleFormSubmission, handleProcessInstanceIdChange, hv]
    · by_cases hi : isInteger value = true
      · simp [handleFormSubmission, handleProcessInstanceIdChange, hv, hi]
      · simp [handleFormSubmission, handleProcessInstanceIdChange, hv, hi]
  · intro hv
    constructor <;> simp [handleFormSubmission, handleProcessInstanceIdChange, hv]

/-- Witness for find_by_id_submission with a digits-only validator: a numeric
    identifier issues the request, an empty identifier marks the field
    invalid. -/
theorem find_by_id_submission_witness :
    (handleFormSubmission (handleProcessInstanceIdChange digitsOnly "42"
        initialFindByIdState)).2 = some "/process-instances/find-by-id/42"
    ∧ (handleFormSubmission (handleProcessInstanceIdChange digitsOnly ""
        initialFindByIdState)).1.processInstanceIdValid = false := by
  constructor
  · rw [(find_by_id_submission digitsOnly "42" initialFindByIdState).1]
    decide
  · exact ((find_by_id_submission digitsOnly "" initialFindByIdState).2 rfl).1

end SpiffArena
